import Mathlib

/-!
Shallow embedding of the generation-record store of the `music-genie`
backend (`backend/database/models.py`, `backend/database/operations.py`,
and the `/stats` route of `backend/main.py`).

Modelling conventions:
* timestamps are rational numbers measured in days (so `timedelta(days=d)`
  is subtraction of `d`, and `timedelta(hours=h)` is subtraction of `h/24`);
* the `music_generations` table is a `List MusicGeneration` in insertion
  order; a committed mutation is the new list;
* Python floats are modelled as `ℚ`; `round(x, 2)` is `pyRound2`
  (round half-to-even on centi-units, as CPython does on exact values);
* dynamically typed creation input (`generation_data : Dict[str, Any]`)
  is an association list of `PyVal`s with first-match lookup;
* the filesystem is a size map plus a removability oracle: `os.remove`
  raises `OSError` exactly on non-removable paths.
-/

/-- A dynamically typed Python value, as far as `validate_generation_data`
inspects one. -/
inductive PyVal where
  | vStr (s : String)
  | vFloat (q : ℚ)
  | vInt (n : ℤ)
  | vBool (b : Bool)
  | vNone
deriving DecidableEq, Repr

/-- A Python dict of dynamic values (keys unique, insertion order kept). -/
abbrev PyDict := List (String × PyVal)

/-- Embedding of `d[k]` lookup (first match). -/
def dictGet (d : PyDict) (k : String) : Option PyVal :=
  (d.find? (fun p => p.1 = k)).map (fun p => p.2)

/-- Embedding of `d[k] = v` assignment: replace the first binding of `k`, else append. -/
def dictSet (d : PyDict) (k : String) (v : PyVal) : PyDict :=
  match d with
  | [] => [(k, v)]
  | (k', v') :: rest =>
      if k' = k then (k, v) :: rest else (k', v') :: dictSet rest k v

/-- Parse the digits of a nonempty decimal string. -/
def parseDigits (cs : List Char) : Option ℕ :=
  if cs.isEmpty then none
  else cs.foldlM (fun a c => if c.isDigit then some (a * 10 + (c.toNat - 48)) else none) 0

/-- Embedding of `float(s)` on a string: optional sign, then digits with an optional
fractional part (exponents, `inf`/`nan` and underscores are rejected;
`float()` accepts those too, but no claim depends on them). -/
def parseFloat (s : String) : Option ℚ :=
  let cs := ((s.toList.dropWhile Char.isWhitespace).reverse.dropWhile
    Char.isWhitespace).reverse
  let signed : ℚ × List Char :=
    match cs with
    | '-' :: rest => (-1, rest)
    | '+' :: rest => (1, rest)
    | _ => (1, cs)
  let sign := signed.1
  let body := signed.2
  let intPart := body.takeWhile (fun c => c ≠ '.')
  match body.dropWhile (fun c => c ≠ '.') with
  | [] =>
      (parseDigits intPart).map (fun n => sign * n)
  | _ :: frac =>
      if frac.contains '.' then none
      else if intPart.isEmpty ∧ frac.isEmpty then none
      else
        let pInt := if intPart.isEmpty then some 0 else parseDigits intPart
        let pFrac := if frac.isEmpty then some 0 else parseDigits frac
        match pInt, pFrac with
        | some i, some f => some (sign * ((i : ℚ) + (f : ℚ) / (10 : ℚ) ^ frac.length))
        | _, _ => none

/-- Embedding of `str(x)`: total on every value (numeric rendering abstracted). -/
def pyStrOf : PyVal → String
  | .vStr s => s
  | .vBool b => if b then "True" else "False"
  | .vNone => "None"
  | .vInt n => toString n
  | .vFloat q => toString q

/-- Embedding of `float(x)`: fails (`TypeError`/`ValueError`) on `None` and on
non-numeric strings. -/
def pyFloat : PyVal → Option ℚ
  | .vFloat q => some q
  | .vInt n => some (n : ℚ)
  | .vBool b => some (if b then 1 else 0)
  | .vStr s => parseFloat s
  | .vNone => none

/-- The two expected types named in `required_fields`. -/
inductive PyType where
  | str
  | float
deriving DecidableEq, Repr

/-- Embedding of `isinstance(v, t)` (`bool` is not a subclass of `float`, and an `int`
is not a `float`). -/
def isinstance : PyVal → PyType → Bool
  | .vStr _, .str => true
  | .vFloat _, .float => true
  | _, _ => false

/-- Embedding of `expected_type(v)`: the coercion attempted when `isinstance` fails. -/
def coerceTo (t : PyType) (v : PyVal) : Option PyVal :=
  match t with
  | .str => some (.vStr (pyStrOf v))
  | .float => (pyFloat v).map .vFloat

/-- Numeric comparison `v <= q`: raises `TypeError` (is `none`) when `v`
is a string or `None`. -/
def pyLE (v : PyVal) (q : ℚ) : Option Bool :=
  match v with
  | .vFloat x => some (decide (x ≤ q))
  | .vInt n => some (decide ((n : ℚ) ≤ q))
  | .vBool b => some (decide ((if b then (1 : ℚ) else 0) ≤ q))
  | .vStr _ => none
  | .vNone => none

/-- One row of the `music_generations` table
(`models.py`, class `MusicGeneration`). -/
structure MusicGeneration where
  generation_id : String
  prompt : String
  status : String
  device : String
  precision : String
  generation_time : ℚ
  realtime_factor : ℚ
  file_path : Option String
  audio_url : Option String
  file_size_mb : ℚ
  duration : ℚ
  sample_rate : ℤ
  play_count : ℕ
  download_count : ℕ
  is_favorited : Bool
  last_played : Option ℚ
  created_at : ℚ
  user_id : Option ℤ
  error_message : Option String
  model_version : String
deriving DecidableEq, Repr

/-- One row of the `system_metrics` table, restricted to the columns
`get_system_health` reads (`error_rate` is `NOT NULL DEFAULT 0.0`). -/
structure SystemMetrics where
  timestamp : ℚ
  cpu_usage : Option ℚ
  memory_usage : Option ℚ
  error_rate : ℚ
deriving DecidableEq, Repr

/-- Embedding of `round(x, 2)`: round to centi-units, ties to the even integer
(CPython banker's rounding). -/
def pyRound2 (q : ℚ) : ℚ :=
  let c := q * 100
  let f : ℤ := ⌊c⌋
  let r : ℤ :=
    if c - f < 1 / 2 then f
    else if c - f > 1 / 2 then f + 1
    else if f % 2 = 0 then f else f + 1
  (r : ℚ) / 100

/-- Embedding of `required_fields` of `validate_generation_data` (insertion order). -/
def required_fields : List (String × PyType) :=
  [("generation_id", .str), ("prompt", .str), ("device", .str),
   ("generation_time", .float), ("file_size_mb", .float)]

/-- The first loop of `validate_generation_data`: each required field must
be present and, when not already of the expected type, coercible to it;
successful coercions are written back into the dict. -/
def checkRequired (d : PyDict) : List (String × PyType) → Except String PyDict
  | [] => .ok d
  | (f, t) :: rest =>
      match dictGet d f with
      | none => .error ("Missing required field: " ++ f)
      | some v =>
          if isinstance v t then checkRequired d rest
          else
            match coerceTo t v with
            | some v' => checkRequired (dictSet d f v') rest
            | none => .error ("Invalid type for " ++ f)

/-- The `defaults` dict of `validate_generation_data` (insertion order). -/
def generation_defaults : List (String × PyVal) :=
  [("status", .vStr "completed"), ("precision", .vStr "float32"),
   ("realtime_factor", .vFloat 1), ("duration", .vFloat 30),
   ("sample_rate", .vInt 32000), ("play_count", .vInt 0),
   ("download_count", .vInt 0), ("is_favorited", .vBool false),
   ("model_version", .vStr "musicgen-small")]

/-- The defaults loop: `if field not in data or data[field] is None`. -/
def applyDefaults (d : PyDict) : List (String × PyVal) → PyDict
  | [] => d
  | (f, v) :: rest =>
      let d' := match dictGet d f with
        | none => dictSet d f v
        | some .vNone => dictSet d f v
        | some _ => d
      applyDefaults d' rest

/-- Embedding of `data[k] <= 0`, raising (`none`) on a missing key or un-comparable
value, as the Python expression would. -/
def dictLEZero (d : PyDict) (k : String) : Option Bool :=
  match dictGet d k with
  | none => none
  | some v => pyLE v 0

/-- Embedding of `validate_generation_data` (`models.py`): required-field checking and
coercion, defaults, then the range checks; an `.error` is a raised
`ValueError`/`TypeError`. -/
def validate_generation_data (data : PyDict) : Except String PyDict :=
  match checkRequired data required_fields with
  | .error e => .error e
  | .ok d =>
      let d := applyDefaults d generation_defaults
      match dictLEZero d "generation_time" with
      | none => .error "TypeError"
      | some true => .error "generation_time must be positive"
      | some false =>
          match dictLEZero d "file_size_mb" with
          | none => .error "TypeError"
          | some true => .error "file_size_mb must be positive"
          | some false =>
              match dictLEZero d "realtime_factor" with
              | none => .error "TypeError"
              | some true => .ok (dictSet d "realtime_factor" (.vFloat 1))
              | some false => .ok d

/-- The filesystem: existing files with their byte sizes, plus an oracle
saying whether `os.remove` succeeds (otherwise it raises `OSError`). -/
structure FileSystem where
  files : List (String × ℕ)
  removable : String → Bool

/-- Embedding of `os.path.exists`. -/
def FileSystem.pathExists (fs : FileSystem) (p : String) : Bool :=
  (fs.files.find? (fun q => q.1 = p)).isSome

/-- Embedding of `os.path.getsize` (0 for a missing file; only called on existing ones). -/
def FileSystem.getsize (fs : FileSystem) (p : String) : ℕ :=
  match fs.files.find? (fun q => q.1 = p) with
  | some q => q.2
  | none => 0

/-- Embedding of `os.remove`: returns whether it succeeded, and the filesystem after. -/
def FileSystem.removeFile (fs : FileSystem) (p : String) : Bool × FileSystem :=
  if fs.removable p then
    (true, ⟨fs.files.filter (fun q => ¬ q.1 = p), fs.removable⟩)
  else (false, fs)

/-- Embedding of `os.path.basename`. -/
def basename (p : String) : String :=
  (p.splitOn "/").getLastD ""

/-- Read a string-valued entry of the cleaned dict (`clean_data[k]`); a
non-string dynamic value is rendered with `str` as the column would. -/
def dictStr (d : PyDict) (k : String) : String :=
  match dictGet d k with
  | some v => pyStrOf v
  | none => ""

/-- Read a numeric entry of the cleaned dict as a float. -/
def dictRat (d : PyDict) (k : String) : ℚ :=
  match dictGet d k with
  | some v => (pyFloat v).getD 0
  | none => 0

/-- Read an integer entry of the cleaned dict. -/
def dictInt (d : PyDict) (k : String) : ℤ :=
  match dictGet d k with
  | some (.vInt n) => n
  | some (.vFloat q) => ⌊q⌋
  | some (.vBool b) => if b then 1 else 0
  | _ => 0

/-- Read an optional string entry (`clean_data.get(k)`). -/
def dictOptStr (d : PyDict) (k : String) : Option String :=
  match dictGet d k with
  | some (.vStr s) => some s
  | _ => none

/-- Read an optional integer entry (`clean_data.get(k)`). -/
def dictOptInt (d : PyDict) (k : String) : Option ℤ :=
  match dictGet d k with
  | some (.vInt n) => some n
  | _ => none

/-- Build the `MusicGeneration` row from the cleaned dict, as the
constructor call in `create_generation_record` does (interaction counters
are the literal defaults `0/0/False`; `created_at` is the server default
`now()`; `error_message` is not passed). -/
def buildGeneration (clean : PyDict) (now : ℚ) : MusicGeneration :=
  { generation_id := dictStr clean "generation_id"
    prompt := dictStr clean "prompt"
    status := dictStr clean "status"
    device := dictStr clean "device"
    precision := dictStr clean "precision"
    generation_time := dictRat clean "generation_time"
    realtime_factor := dictRat clean "realtime_factor"
    file_path := dictOptStr clean "file_path"
    audio_url := dictOptStr clean "audio_url"
    file_size_mb := dictRat clean "file_size_mb"
    duration := dictRat clean "duration"
    sample_rate := dictInt clean "sample_rate"
    play_count := 0
    download_count := 0
    is_favorited := false
    last_played := none
    created_at := now
    user_id := dictOptInt clean "user_id"
    error_message := none
    model_version := dictStr clean "model_version" }

/-- Embedding of `DatabaseOperations.create_generation_record` (`operations.py`):
validate, optionally override size/path/url from the on-disk artifact,
insert and commit; any raised error rolls the transaction back and the
function returns `None` with the table unchanged. -/
def create_generation_record (db : List MusicGeneration) (generation_data : PyDict)
    (file_path : Option String) (fs : FileSystem) (now : ℚ) :
    Option MusicGeneration × List MusicGeneration :=
  match validate_generation_data generation_data with
  | .error _ => (none, db)
  | .ok clean =>
      let clean :=
        match file_path with
        | some p =>
            if fs.pathExists p then
              let actual_size_mb := pyRound2 ((fs.getsize p : ℚ) / (1024 * 1024))
              let d := dictSet clean "file_size_mb" (.vFloat actual_size_mb)
              let d := dictSet d "file_path" (.vStr p)
              dictSet d "audio_url" (.vStr ("/audio/" ++ basename p))
            else clean
        | none => clean
      let generation := buildGeneration clean now
      (some generation, db ++ [generation])

/-- Embedding of `MusicGeneration.increment_play_count` (`models.py`): bump the play
count and stamp `last_played` with the current time. -/
def increment_play_count (r : MusicGeneration) (now : ℚ) : MusicGeneration :=
  { r with play_count := r.play_count + 1, last_played := some now }

/-- Embedding of `DatabaseOperations.record_play` (`operations.py`): look the record up
by `generation_id` (`.first()`, i.e. first match); absent ⇒ `False` with
no mutation; present ⇒ increment, commit, `True`. `play_duration` is only
logged. -/
def record_play (db : List MusicGeneration) (generation_id : String)
    (play_duration : Option ℚ) (now : ℚ) : Bool × List MusicGeneration :=
  match db with
  | [] => (false, [])
  | r :: rest =>
      if r.generation_id = generation_id then
        (true, increment_play_count r now :: rest)
      else
        let out := record_play rest generation_id play_duration now
        (out.1, r :: out.2)

/-- Embedding of `MusicGeneration.toggle_favorite` (`models.py`): flip the flag,
return the new value. -/
def MusicGeneration.toggleFav (r : MusicGeneration) : MusicGeneration :=
  { r with is_favorited := !r.is_favorited }

/-- Embedding of `DatabaseOperations.toggle_favorite` (`operations.py`): absent ⇒
`None` (not-found sentinel) with no mutation; present ⇒ flip the first
matching row, commit, and return the new value. -/
def toggle_favorite (db : List MusicGeneration) (generation_id : String) :
    Option Bool × List MusicGeneration :=
  match db with
  | [] => (none, [])
  | r :: rest =>
      if r.generation_id = generation_id then
        (some (!r.is_favorited), r.toggleFav :: rest)
      else
        let out := toggle_favorite rest generation_id
        (out.1, r :: out.2)

/-- The report dict returned by `get_generation_stats` (success branch). -/
structure StatsReport where
  period_days : ℤ
  total_generations : ℕ
  successful_generations : ℕ
  failed_generations : ℕ
  success_rate : ℚ
  avg_generation_time : ℚ
  avg_realtime_factor : ℚ
  total_file_size_mb : ℚ
  avg_file_size_mb : ℚ
  total_plays : ℕ
  total_downloads : ℕ
  total_favorites : ℕ
  device_breakdown : List (String × ℕ × ℚ)
  recent_24h_generations : ℕ
deriving DecidableEq, Repr

/-- The device-stats accumulation loop: first occurrence of a device
inserts it; later ones bump `count` and `total_time`. -/
def addDeviceStat (acc : List (String × ℕ × ℚ)) (g : MusicGeneration) :
    List (String × ℕ × ℚ) :=
  match acc with
  | [] => [(g.device, 1, g.generation_time)]
  | (d, c, t) :: rest =>
      if d = g.device then (d, c + 1, t + g.generation_time) :: rest
      else (d, c, t) :: addDeviceStat rest g

/-- Embedding of `DatabaseOperations.get_generation_stats` (`operations.py`): report
over the trailing `days` window ending at `now`. The `days` argument is
used exactly as given — there is no clamping in this function. The
per-device `avg_time` is `total_time / count`, not rounded; the top-level
rates and averages are rounded to two decimals. -/
def get_generation_stats (db : List MusicGeneration) (now : ℚ) (days : ℤ) :
    StatsReport :=
  let start_date := now - (days : ℚ)
  let window := db.filter (fun r => decide (start_date ≤ r.created_at))
  let total_generations := window.length
  let successful_gens := window.filter (fun r => r.status = "completed")
  let successful_generations := successful_gens.length
  let failed_generations := (window.filter (fun r => r.status = "failed")).length
  let success_rate : ℚ :=
    ((successful_generations : ℚ) / (max total_generations 1 : ℕ)) * 100
  let n := successful_gens.length
  let avg_generation_time : ℚ :=
    if n ≠ 0 then (successful_gens.map (fun g => g.generation_time)).sum / n else 0
  let avg_realtime_factor : ℚ :=
    if n ≠ 0 then (successful_gens.map (fun g => g.realtime_factor)).sum / n else 0
  let total_file_size : ℚ :=
    if n ≠ 0 then (successful_gens.map (fun g => g.file_size_mb)).sum else 0
  let avg_file_size : ℚ := if n ≠ 0 then total_file_size / n else 0
  let total_plays := (successful_gens.map (fun g => g.play_count)).sum
  let total_downloads := (successful_gens.map (fun g => g.download_count)).sum
  let total_favorites := (successful_gens.filter (fun g => g.is_favorited)).length
  let device_stats := successful_gens.foldl addDeviceStat []
  let device_breakdown := device_stats.map (fun e => (e.1, e.2.1, e.2.2 / (e.2.1 : ℚ)))
  let recent_start := now - 1
  let recent_24h := (db.filter (fun r => decide (recent_start ≤ r.created_at))).length
  { period_days := days
    total_generations := total_generations
    successful_generations := successful_generations
    failed_generations := failed_generations
    success_rate := pyRound2 success_rate
    avg_generation_time := pyRound2 avg_generation_time
    avg_realtime_factor := pyRound2 avg_realtime_factor
    total_file_size_mb := pyRound2 total_file_size
    avg_file_size_mb := pyRound2 avg_file_size
    total_plays := total_plays
    total_downloads := total_downloads
    total_favorites := total_favorites
    device_breakdown := device_breakdown
    recent_24h_generations := recent_24h }

/-- The `/stats` route handler (`main.py`, database-available branch): it
clamps `days` with `max(1, min(days, 365))` before calling
`get_generation_stats`. -/
def get_stats_route (db : List MusicGeneration) (now : ℚ) (days : ℤ) : StatsReport :=
  get_generation_stats db now (max 1 (min days 365))

/-- The report dict returned by `cleanup_old_generations`: the dry-run
branch reports only the candidate count, the cutoff and the echoed
`keep_favorites` flag; the destructive branch reports the two deletion
counts, cutoff and flag. -/
inductive CleanupReport where
  | dryRunReport (generations_to_delete : ℕ) (cutoff_date : ℚ) (keep_favorites : Bool)
  | destructiveReport (deleted_records : ℕ) (deleted_files : ℕ)
      (cutoff_date : ℚ) (keep_favorites : Bool)
deriving DecidableEq, Repr

/-- The deletion-candidate filter of `cleanup_old_generations`:
`created_at < cutoff`, and additionally `is_favorited == False` when
`keep_favorites` is set. -/
def isCleanupCandidate (cutoff : ℚ) (keep_favorites : Bool) (r : MusicGeneration) :
    Bool :=
  decide (r.created_at < cutoff) && (if keep_favorites then !r.is_favorited else true)

/-- The destructive loop of `cleanup_old_generations`: for each candidate,
best-effort-delete the artifact (a failed `os.remove` is caught and only
logged), then delete the row; returns
`(deleted_files, deleted_records, fs)`. -/
def cleanupLoop (fs : FileSystem) (deleted_files deleted_records : ℕ) :
    List MusicGeneration → ℕ × ℕ × FileSystem
  | [] => (deleted_files, deleted_records, fs)
  | g :: rest =>
      let fileStep : ℕ × FileSystem :=
        match g.file_path with
        | some p =>
            if fs.pathExists p then
              match fs.removeFile p with
              | (true, fs') => (deleted_files + 1, fs')
              | (false, fs') => (deleted_files, fs')
            else (deleted_files, fs)
        | none => (deleted_files, fs)
      cleanupLoop fileStep.2 fileStep.1 (deleted_records + 1) rest

/-- Embedding of `DatabaseOperations.cleanup_old_generations` (`operations.py`):
compute the candidate set; in dry-run return a count-only report with no
mutation; otherwise run the deletion loop and commit once (the surviving
table is exactly the non-candidates). -/
def cleanup_old_generations (db : List MusicGeneration) (fs : FileSystem)
    (now : ℚ) (days_to_keep : ℤ) (keep_favorites dry_run : Bool) :
    CleanupReport × List MusicGeneration × FileSystem :=
  let cutoff_date := now - (days_to_keep : ℚ)
  let generations_to_delete := db.filter (isCleanupCandidate cutoff_date keep_favorites)
  if dry_run then
    (.dryRunReport generations_to_delete.length cutoff_date keep_favorites, db, fs)
  else
    let loopOut := cleanupLoop fs 0 0 generations_to_delete
    (.destructiveReport loopOut.2.1 loopOut.1 cutoff_date keep_favorites,
     db.filter (fun r => !isCleanupCandidate cutoff_date keep_favorites r),
     loopOut.2.2)

/-- The report dict returned by `get_system_health` (success branch),
restricted to the fields the claims mention. -/
structure HealthReport where
  health_score : ℤ
  status : String
  recent_total : ℕ
  recent_successful : ℕ
  recent_failed : ℕ
  recent_success_rate : ℚ
deriving DecidableEq, Repr

/-- Embedding of `ORDER BY timestamp DESC ... .first()`: the row with the greatest
timestamp (first-seen wins on ties). -/
def latestMetric (table : List SystemMetrics) : Option SystemMetrics :=
  table.foldl
    (fun acc m =>
      match acc with
      | none => some m
      | some a => if m.timestamp > a.timestamp then some m else some a)
    none

/-- The Python truthiness guard `if m.f and m.f > bound` on a nullable
column: `None` and `0.0` are falsy. -/
def truthyGT (v : Option ℚ) (bound : ℚ) : Bool :=
  match v with
  | some c => !decide (c = 0) && decide (c > bound)
  | none => false

/-- Embedding of `DatabaseOperations.get_system_health` (`operations.py`): score starts
at 100; the three metric deductions apply only when a metrics row exists;
the recent-failure deduction looks at records created in the trailing
hour; the returned score is clamped at 0, while the status thresholds are
evaluated on the unclamped score. -/
def get_system_health (db : List MusicGeneration) (metrics : List SystemMetrics)
    (now : ℚ) : HealthReport :=
  let latest := latestMetric metrics
  let recent := db.filter (fun r => decide (now - 1 / 24 ≤ r.created_at))
  let recent_success := (recent.filter (fun r => r.status = "completed")).length
  let recent_failed := (recent.filter (fun r => r.status = "failed")).length
  let recent_total := recent.length
  let afterMetrics : ℤ :=
    match latest with
    | some m =>
        100 - (if truthyGT m.cpu_usage 80 then 20 else 0)
            - (if truthyGT m.memory_usage 85 then 20 else 0)
            - (if m.error_rate > 1 / 10 then 30 else 0)
    | none => 100
  let health_score :=
    if recent_total > 0 ∧ (recent_failed : ℚ) / (recent_total : ℚ) > 1 / 5 then
      afterMetrics - 30
    else afterMetrics
  { health_score := max 0 health_score
    status :=
      if health_score ≥ 80 then "healthy"
      else if health_score ≥ 50 then "warning"
      else "critical"
    recent_total := recent_total
    recent_successful := recent_success
    recent_failed := recent_failed
    recent_success_rate := ((recent_success : ℚ) / (max recent_total 1 : ℕ)) * 100 }

/-!
Concurrency model for `record_play` (§ Interaction Counters).

`record_play` reads the row's `play_count` into the session
(`.filter(...).first()`), computes `play_count + 1` in Python
(`increment_play_count`), and on `session.commit()` writes the computed
value back (`UPDATE ... SET play_count = <value>`): an unguarded
read-then-write, with no `with_for_update()` row lock and no atomic
`play_count = play_count + 1` update expression. We model one shared
record's `play_count` and `n` concurrent callers, each of which performs
one `read` step (load the current count into its session) and one `write`
step (store its loaded count plus one). A schedule is any interleaving of
these steps.
-/

/-- One atomic step of thread `tid` against the shared row. -/
inductive DbAction where
  | read (tid : ℕ)
  | write (tid : ℕ)
deriving DecidableEq, Repr

/-- Shared row value plus each caller's session-loaded value. -/
structure ConcState where
  shared : ℕ
  bufs : List (Option ℕ)
deriving DecidableEq, Repr

/-- Execute one step: `read` loads the current shared count into the
thread's session; `write` commits the loaded count plus one. -/
def concStep (s : ConcState) (a : DbAction) : ConcState :=
  match a with
  | .read tid => { s with bufs := s.bufs.set tid (some s.shared) }
  | .write tid =>
      match s.bufs.get? tid with
      | some (some v) => { s with shared := v + 1 }
      | _ => s

/-- Run a schedule of steps from an initial state. -/
def runSchedule (s : ConcState) (sched : List DbAction) : ConcState :=
  sched.foldl concStep s

/-- A schedule is a complete interleaving of `n` concurrent `record_play`
calls: each caller reads exactly once and writes exactly once, its read
preceding its write. -/
def isInterleaving (n : ℕ) (sched : List DbAction) : Bool :=
  decide (sched.length = 2 * n) &&
  (List.range n).all (fun t =>
    decide (sched.count (.read t) = 1) &&
    decide (sched.count (.write t) = 1) &&
    decide (sched.indexOf (.read t) < sched.indexOf (.write t)))

/-- The serial schedule: caller `t` reads then writes before caller
`t + 1` starts. -/
def serialSchedule (n : ℕ) : List DbAction :=
  (List.range n).flatMap (fun t => [.read t, .write t])

/-- The lost-update schedule: all `n` callers read the initial count
before any of them writes. -/
def lostUpdateSchedule (n : ℕ) : List DbAction :=
  (List.range n).map .read ++ (List.range n).map .write

/-- Fresh initial state: shared count 0, no session has read yet. -/
def initConcState (n : ℕ) : ConcState :=
  { shared := 0, bufs := List.replicate n none }

/-!
Spec-side definitions (written from the spec's words, for comparison with
the code's health computation), and concrete sample data used by
witnesses and counterexamples.
-/

/-- Spec wording: "Subtract 20 if the latest CPU sample exceeds 80%." -/
def specCpuPenalty (m : Option SystemMetrics) : ℤ :=
  match m with
  | some m =>
      match m.cpu_usage with
      | some c => if c > 80 then 20 else 0
      | none => 0
  | none => 0

/-- Spec wording: "Subtract 20 if the latest memory sample exceeds 85%." -/
def specMemPenalty (m : Option SystemMetrics) : ℤ :=
  match m with
  | some m =>
      match m.memory_usage with
      | some c => if c > 85 then 20 else 0
      | none => 0
  | none => 0

/-- Spec wording: "Subtract 30 if the latest reported error rate exceeds
0.1 (10%)." -/
def specErrPenalty (m : Option SystemMetrics) : ℤ :=
  match m with
  | some m => if m.error_rate > 1 / 10 then 30 else 0
  | none => 0

/-- Spec wording: "over records created in the trailing hour, if more
than 20% failed, subtract a further 30." -/
def specRecentPenalty (db : List MusicGeneration) (now : ℚ) : ℤ :=
  let recent := db.filter (fun r => decide (now - 1 / 24 ≤ r.created_at))
  if recent.length > 0 ∧
      ((recent.filter (fun r => r.status = "failed")).length : ℚ) / (recent.length : ℚ) > 1 / 5
  then 30 else 0

/-- A completed sample row (all fields at the store's defaults). -/
def baseRec : MusicGeneration :=
  { generation_id := "g1", prompt := "p", status := "completed", device := "cpu",
    precision := "float32", generation_time := 10, realtime_factor := 1,
    file_path := none, audio_url := none, file_size_mb := 1, duration := 30,
    sample_rate := 32000, play_count := 0, download_count := 0,
    is_favorited := false, last_played := none, created_at := 0,
    user_id := none, error_message := none, model_version := "musicgen-small" }

/-- Three records in the window, one completed and two failed: the raw
success rate is 100/3, which is not representable in two decimals. -/
def statsCexDb : List MusicGeneration :=
  [baseRec,
   { baseRec with generation_id := "g2", status := "failed" },
   { baseRec with generation_id := "g3", status := "failed" }]

/-- Three completed records on one device with times 10, 10 and 5: the
device average is 25/3, not representable in two decimals. -/
def devCexDb : List MusicGeneration :=
  [baseRec,
   { baseRec with generation_id := "g2" },
   { baseRec with generation_id := "g3", generation_time := 5 }]

/-- One record created 380 days before `now = 0`: inside a 400-day
window, outside a 365-day one. -/
def clampCexDb : List MusicGeneration :=
  [{ baseRec with created_at := -380 }]

/-- An empty filesystem on which nothing is removable. -/
def emptyFs : FileSystem := ⟨[], fun _ => false⟩

/-- A metrics row with CPU at 90%, memory at 50% and error rate 0. -/
def highCpuMetric : SystemMetrics :=
  { timestamp := 0, cpu_usage := some 90, memory_usage := some 50, error_rate := 0 }

/-! ## Dict lemmas -/

theorem dictGet_cons (p : String × PyVal) (rest : PyDict) (k : String) :
    dictGet (p :: rest) k = if p.1 = k then some p.2 else dictGet rest k := by
  by_cases h : p.1 = k <;> simp [dictGet, List.find?, h]

theorem dictGet_dictSet_ne (d : PyDict) (k k' : String) (v : PyVal)
    (h : ¬ k' = k) : dictGet (dictSet d k' v) k = dictGet d k := by
  induction d with
  | nil => simp [dictSet, dictGet_cons, dictGet, h]
  | cons p rest ih =>
      obtain ⟨a, b⟩ := p
      by_cases hp : a = k'
      · subst hp
        simp [dictSet, dictGet_cons, h]
      · simp [dictSet, hp, dictGet_cons, ih]

/-! ## Required-field rejection -/

theorem checkRequired_fails :
    ∀ (l : List (String × PyType)) (d : PyDict) (f : String) (t : PyType),
      (f, t) ∈ l → (l.map Prod.fst).Nodup →
      (dictGet d f = none ∨
        ∃ v, dictGet d f = some v ∧ isinstance v t = false ∧ coerceTo t v = none) →
      ∃ e, checkRequired d l = .error e := by
  intro l
  induction l with
  | nil => intro d f t h _ _; simp at h
  | cons p rest ih =>
      intro d f t hmem hnodup hbad
      obtain ⟨f', t'⟩ := p
      rw [List.map_cons] at hnodup
      obtain ⟨hnotmem, hnodup'⟩ := List.nodup_cons.mp hnodup
      rcases List.mem_cons.mp hmem with heq | htail
      · injection heq with hf ht
        subst hf; subst ht
        rcases hbad with hnone | ⟨v, hv, hinst, hco⟩
        · exact ⟨"Missing required field: " ++ f, by simp [checkRequired, hnone]⟩
        · exact ⟨"Invalid type for " ++ f, by simp [checkRequired, hv, hinst, hco]⟩
      · have hfmem : f ∈ rest.map Prod.fst := List.mem_map_of_mem Prod.fst htail
        have hfne : ¬ f' = f := fun hc => hnotmem (hc ▸ hfmem)
        cases hd : dictGet d f' with
        | none => exact ⟨"Missing required field: " ++ f', by simp [checkRequired, hd]⟩
        | some v =>
            by_cases hi : isinstance v t' = true
            · obtain ⟨e, he⟩ := ih d f t htail hnodup' hbad
              exact ⟨e, by simp [checkRequired, hd, hi, he]⟩
            · simp only [Bool.not_eq_true] at hi
              cases hc : coerceTo t' v with
              | none =>
                  exact ⟨"Invalid type for " ++ f', by simp [checkRequired, hd, hi, hc]⟩
              | some v' =>
                  have hbad' : dictGet (dictSet d f' v') f = none ∨
                      ∃ w, dictGet (dictSet d f' v') f = some w ∧
                        isinstance w t = false ∧ coerceTo t w = none := by
                    rw [dictGet_dictSet_ne d f f' v' hfne]
                    exact hbad
                  obtain ⟨e, he⟩ := ih (dictSet d f' v') f t htail hnodup' hbad'
                  exact ⟨e, by simp [checkRequired, hd, hi, hc, he]⟩

/-- C1: for every creation input in which a required field
(`generation_id`, `prompt`, `device`, `generation_time`, `file_size_mb`)
is absent or cannot be coerced to its expected type,
`create_generation_record` persists no record: validation raises, the
transaction is rolled back (the table is returned unchanged), and the
operation returns `none` rather than a partial record. -/
theorem create_generation_record_rejects_invalid (db : List MusicGeneration)
    (generation_data : PyDict) (file_path : Option String) (fs : FileSystem)
    (now : ℚ) (f : String) (t : PyType)
    (hmem : (f, t) ∈ required_fields)
    (hbad : dictGet generation_data f = none ∨
      ∃ v, dictGet generation_data f = some v ∧
        isinstance v t = false ∧ coerceTo t v = none) :
    create_generation_record db generation_data file_path fs now = (none, db) := by
  obtain ⟨e, he⟩ := checkRequired_fails required_fields generation_data f t hmem
    (by decide) hbad
  simp [create_generation_record, validate_generation_data, he]

/-- Witness for C1: a creation input missing `generation_id` is rejected
and nothing is persisted; likewise a `generation_time` that `float()`
cannot parse. -/
theorem create_generation_record_rejects_invalid_witness :
    create_generation_record [] [("prompt", .vStr "x")] none emptyFs 0 = (none, []) ∧
    create_generation_record [baseRec]
      [("generation_id", .vStr "g9"), ("prompt", .vStr "x"), ("device", .vStr "cpu"),
       ("generation_time", .vStr "fast"), ("file_size_mb", .vFloat 1)]
      none emptyFs 0 = (none, [baseRec]) :=
  ⟨create_generation_record_rejects_invalid [] [("prompt", .vStr "x")] none emptyFs 0
      "generation_id" .str (by decide) (.inl (by decide)),
   create_generation_record_rejects_invalid [baseRec] _ none emptyFs 0
      "generation_time" .float (by decide)
      (.inr ⟨.vStr "fast", by decide, by decide, by decide⟩)⟩

/-! ## Cleanup -/

theorem cleanupLoop_records (l : List MusicGeneration) :
    ∀ fs a b, (cleanupLoop fs a b l).2.1 = b + l.length := by
  induction l with
  | nil => intro fs a b; simp [cleanupLoop]
  | cons g rest ih =>
      intro fs a b
      simp only [cleanupLoop]
      rw [ih]
      simp
      omega

theorem cleanupLoop_files (l : List MusicGeneration) :
    ∀ fs a b, (cleanupLoop fs a b l).1 ≤ a + l.length := by
  induction l with
  | nil => intro fs a b; simp [cleanupLoop]
  | cons g rest ih =>
      intro fs a b
      cases hfp : g.file_path with
      | none =>
          simp only [cleanupLoop, hfp]
          exact le_trans (ih _ _ _) (by simp)
      | some p =>
          by_cases hex : fs.pathExists p = true
          · cases hrm : fs.removeFile p with
            | mk bb ff =>
                cases bb
                · simp only [cleanupLoop, hfp, hex, hrm, if_true]
                  exact le_trans (ih _ _ _) (by simp)
                · simp only [cleanupLoop, hfp, hex, hrm, if_true]
                  exact le_trans (ih _ _ _) (by simp only [List.length_cons]; omega)
          · simp only [cleanupLoop, hfp]
            rw [if_neg hex]
            exact le_trans (ih _ _ _) (by simp)

/-- C2: in destructive (non-dry-run) cleanup, every candidate's database
record is deleted regardless of whether deleting its on-disk artifact
succeeds (for every filesystem oracle): `deleted_records` equals the
number of candidates, `deleted_files ≤ deleted_records`, the surviving
table is exactly the non-candidates, and no artifact-deletion failure
aborts the remaining candidates. -/
theorem cleanup_destructive_deletes_all_candidates (db : List MusicGeneration)
    (fs : FileSystem) (now : ℚ) (days_to_keep : ℤ) (keep_favorites : Bool) :
    ∃ deleted_files fs2,
      cleanup_old_generations db fs now days_to_keep keep_favorites false =
        (.destructiveReport
          (db.filter (isCleanupCandidate (now - (days_to_keep : ℚ)) keep_favorites)).length
          deleted_files (now - (days_to_keep : ℚ)) keep_favorites,
         db.filter (fun r => !isCleanupCandidate (now - (days_to_keep : ℚ)) keep_favorites r),
         fs2) ∧
      deleted_files ≤
        (db.filter (isCleanupCandidate (now - (days_to_keep : ℚ)) keep_favorites)).length := by
  refine ⟨(cleanupLoop fs 0 0
      (db.filter (isCleanupCandidate (now - (days_to_keep : ℚ)) keep_favorites))).1,
    (cleanupLoop fs 0 0
      (db.filter (isCleanupCandidate (now - (days_to_keep : ℚ)) keep_favorites))).2.2,
    ?_, ?_⟩
  · simp only [cleanup_old_generations, Bool.false_eq_true, if_false]
    rw [cleanupLoop_records]
    simp
  · simpa using cleanupLoop_files
      (db.filter (isCleanupCandidate (now - (days_to_keep : ℚ)) keep_favorites)) fs 0 0

/-- C3: dry-run cleanup leaves the record store and the filesystem
completely unchanged for every store state and every
`days_to_keep`/`keep_favorites`, and its report carries only the
candidate count (records older than the cutoff, minus favorited ones
when `keep_favorites`), the cutoff used, and the echoed flags. -/
theorem cleanup_dry_run_pure (db : List MusicGeneration) (fs : FileSystem)
    (now : ℚ) (days_to_keep : ℤ) (keep_favorites : Bool) :
    cleanup_old_generations db fs now days_to_keep keep_favorites true =
      (.dryRunReport
        (db.filter (isCleanupCandidate (now - (days_to_keep : ℚ)) keep_favorites)).length
        (now - (days_to_keep : ℚ)) keep_favorites,
       db, fs) := by
  simp [cleanup_old_generations]

/-! ## Interaction counters -/

theorem toggle_favorite_not_found (db : List MusicGeneration) (generation_id : String)
    (h : ∀ r ∈ db, r.generation_id ≠ generation_id) :
    toggle_favorite db generation_id = (none, db) := by
  induction db with
  | nil => simp [toggle_favorite]
  | cons r rest ih =>
      have h1 : r.generation_id ≠ generation_id := h r (by simp)
      simp [toggle_favorite, h1, ih (fun q hq => h q (by simp [hq]))]

theorem toggle_favorite_found (pre post : List MusicGeneration)
    (r : MusicGeneration) (generation_id : String)
    (hpre : ∀ q ∈ pre, q.generation_id ≠ generation_id)
    (hid : r.generation_id = generation_id) :
    toggle_favorite (pre ++ r :: post) generation_id =
      (some (!r.is_favorited), pre ++ r.toggleFav :: post) := by
  induction pre with
  | nil => simp [toggle_favorite, hid]
  | cons q rest ih =>
      have h1 : q.generation_id ≠ generation_id := hpre q (by simp)
      simp [toggle_favorite, h1, ih (fun q' hq' => hpre q' (by simp [hq']))]

/-- C6: `toggle_favorite` is its own inverse: on an identifier whose
record is present, two calls restore the store exactly, each call flips
the flag and returns the new (post-flip) value, and on an absent
identifier it returns the sentinel `none` (distinct from `some false`)
and leaves the store unchanged. -/
theorem toggle_favorite_involutive (db : List MusicGeneration) (generation_id : String) :
    ((∀ r ∈ db, r.generation_id ≠ generation_id) →
      toggle_favorite db generation_id = (none, db)) ∧
    (∀ pre r post, db = pre ++ r :: post → r.generation_id = generation_id →
      (∀ q ∈ pre, q.generation_id ≠ generation_id) →
      (toggle_favorite db generation_id).1 = some (!r.is_favorited) ∧
      (toggle_favorite db generation_id).2 = pre ++ r.toggleFav :: post ∧
      (toggle_favorite (toggle_favorite db generation_id).2 generation_id).2 = db) := by
  constructor
  · exact toggle_favorite_not_found db generation_id
  · intro pre r post hdb hid hpre
    subst hdb
    rw [toggle_favorite_found pre post r generation_id hpre hid]
    refine ⟨rfl, rfl, ?_⟩
    rw [toggle_favorite_found pre post r.toggleFav generation_id hpre
      (by simpa [MusicGeneration.toggleFav] using hid)]
    simp [MusicGeneration.toggleFav]

/-- Witness for C6: toggling `g1` in a one-record store returns the
flipped value `some true`, and toggling twice restores the store. -/
theorem toggle_favorite_involutive_witness :
    (toggle_favorite [baseRec] "g1").1 = some true ∧
    (toggle_favorite (toggle_favorite [baseRec] "g1").2 "g1").2 = [baseRec] := by
  have h := (toggle_favorite_involutive [baseRec] "g1").2 [] baseRec [] rfl rfl (by simp)
  exact ⟨h.1, h.2.2⟩

theorem record_play_not_found (db : List MusicGeneration) (generation_id : String)
    (play_duration : Option ℚ) (now : ℚ)
    (h : ∀ r ∈ db, r.generation_id ≠ generation_id) :
    record_play db generation_id play_duration now = (false, db) := by
  induction db with
  | nil => simp [record_play]
  | cons r rest ih =>
      have h1 : r.generation_id ≠ generation_id := h r (by simp)
      simp [record_play, h1, ih (fun q hq => h q (by simp [hq]))]

theorem record_play_found (pre post : List MusicGeneration)
    (r : MusicGeneration) (generation_id : String)
    (play_duration : Option ℚ) (now : ℚ)
    (hpre : ∀ q ∈ pre, q.generation_id ≠ generation_id)
    (hid : r.generation_id = generation_id) :
    record_play (pre ++ r :: post) generation_id play_duration now =
      (true, pre ++ increment_play_count r now :: post) := by
  induction pre with
  | nil => simp [record_play, hid]
  | cons q rest ih =>
      have h1 : q.generation_id ≠ generation_id := hpre q (by simp)
      simp [record_play, h1, ih (fun q' hq' => hpre q' (by simp [hq']))]

/-- C7: `record_play` on an absent identifier returns `false` and leaves
the store unchanged (not-found is a value, not an error); on the present
record it returns `true` and the store in which exactly that record has
`play_count` incremented by one and `last_played` set to now, all other
records and all other fields unchanged. -/
theorem record_play_spec (db : List MusicGeneration) (generation_id : String)
    (play_duration : Option ℚ) (now : ℚ) :
    ((∀ r ∈ db, r.generation_id ≠ generation_id) →
      record_play db generation_id play_duration now = (false, db)) ∧
    (∀ pre r post, db = pre ++ r :: post → r.generation_id = generation_id →
      (∀ q ∈ pre, q.generation_id ≠ generation_id) →
      record_play db generation_id play_duration now =
        (true, pre ++ { r with play_count := r.play_count + 1,
                               last_played := some now } :: post)) := by
  constructor
  · exact record_play_not_found db generation_id play_duration now
  · intro pre r post hdb hid hpre
    subst hdb
    exact record_play_found pre post r generation_id play_duration now hpre hid

/-- Witness for C7: playing an absent identifier changes nothing and
returns `false`; playing `g1` bumps only its count and stamp. -/
theorem record_play_spec_witness :
    record_play [baseRec] "zzz" none 5 = (false, [baseRec]) ∧
    record_play [baseRec] "g1" none 5 =
      (true, [{ baseRec with play_count := 1, last_played := some 5 }]) := by
  refine ⟨(record_play_spec [baseRec] "zzz" none 5).1 (by decide), ?_⟩
  exact (record_play_spec [baseRec] "g1" none 5).2 [] baseRec [] rfl rfl (by simp)

/-! ## Statistics aggregator -/

theorem pyRound2_zero : pyRound2 0 = 0 := by
  norm_num [pyRound2]

/-- Counterexample for C4 as stated: with one completed and two failed
records in the window the returned `success_rate` is the two-decimal
rounding 33.33, not the exact `successful / max(total, 1) * 100 = 100/3`. -/
theorem get_generation_stats_success_rate_cex :
    (get_generation_stats statsCexDb 1 7).total_generations = 3 ∧
    (get_generation_stats statsCexDb 1 7).successful_generations = 1 ∧
    (get_generation_stats statsCexDb 1 7).success_rate ≠
      ((1 : ℚ) / (max 3 1 : ℕ)) * 100 := by
  refine ⟨?_, ?_, ?_⟩
  · simp [get_generation_stats, statsCexDb, baseRec, List.filter_cons]
  · simp [get_generation_stats, statsCexDb, baseRec, List.filter_cons]
  · simp [get_generation_stats, statsCexDb, baseRec, List.filter_cons, pyRound2]
    norm_num [Int.fract]

/-- C4 (amended): `get_generation_stats` returns `success_rate` equal to
`successful / max(total, 1) * 100` **rounded to two decimal places**; in
particular on an empty window it returns `success_rate = 0.0` with the
total, successful and failed counts all zero, and never faults with a
division by zero. -/
theorem get_generation_stats_success_rate (db : List MusicGeneration)
    (now : ℚ) (days : ℤ) :
    (get_generation_stats db now days).success_rate =
      pyRound2
        ((((db.filter (fun r => decide (now - (days : ℚ) ≤ r.created_at))).filter
            (fun r => r.status = "completed")).length : ℚ) /
          ((max (db.filter (fun r => decide (now - (days : ℚ) ≤ r.created_at))).length 1 : ℕ) : ℚ)
          * 100) ∧
    ((db.filter (fun r => decide (now - (days : ℚ) ≤ r.created_at))).length = 0 →
      (get_generation_stats db now days).success_rate = 0 ∧
      (get_generation_stats db now days).total_generations = 0 ∧
      (get_generation_stats db now days).successful_generations = 0 ∧
      (get_generation_stats db now days).failed_generations = 0) := by
  constructor
  · rfl
  · intro h0
    have hnil : db.filter (fun r => decide (now - (days : ℚ) ≤ r.created_at)) = [] :=
      List.length_eq_zero.mp h0
    refine ⟨?_, ?_, ?_, ?_⟩ <;>
      simp only [get_generation_stats, hnil, List.filter_nil, List.length_nil] <;>
      norm_num [pyRound2_zero]

/-- Witness for C4: the empty store gives a zeroed report with
`success_rate = 0` and no division-by-zero fault. -/
theorem get_generation_stats_success_rate_witness :
    (get_generation_stats [] 0 7).success_rate = 0 ∧
    (get_generation_stats [] 0 7).total_generations = 0 ∧
    (get_generation_stats [] 0 7).successful_generations = 0 ∧
    (get_generation_stats [] 0 7).failed_generations = 0 :=
  (get_generation_stats_success_rate [] 0 7).2 rfl

/-- Counterexample for C8 as stated: a record 380 days old is counted by
`get_generation_stats` when `days = 400` but not when `days = 365`, so
the function does not treat 400 as 365 — it applies no clamp itself. -/
theorem get_generation_stats_no_clamp_cex :
    (get_generation_stats clampCexDb 0 400).total_generations = 1 ∧
    (get_generation_stats clampCexDb 0 365).total_generations = 0 := by
  constructor <;>
    simp [get_generation_stats, clampCexDb, baseRec, List.filter_cons] <;>
    norm_num

/-- C8 (amended): `get_generation_stats` uses the `days` argument exactly
as given; the clamp to [1, 365] is applied by its caller, the `/stats`
route, which passes `max(1, min(days, 365))` — so at the route boundary
any `days` below 1 is treated as 1 and any above 365 as 365. -/
theorem get_stats_route_clamps_days (db : List MusicGeneration) (now : ℚ)
    (days : ℤ) :
    get_stats_route db now days = get_generation_stats db now (max 1 (min days 365)) ∧
    (days > 365 → get_stats_route db now days = get_generation_stats db now 365) ∧
    (days < 1 → get_stats_route db now days = get_generation_stats db now 1) ∧
    (1 ≤ days → days ≤ 365 →
      get_stats_route db now days = get_generation_stats db now days) := by
  refine ⟨rfl, ?_, ?_, ?_⟩
  · intro h; rw [get_stats_route]; congr 1; omega
  · intro h; rw [get_stats_route]; congr 1; omega
  · intro h1 h2; rw [get_stats_route]; congr 1; omega

/-- Witness for C8: the route clamps 400 down to 365 and 0 up to 1. -/
theorem get_stats_route_clamps_days_witness :
    get_stats_route clampCexDb 0 400 = get_generation_stats clampCexDb 0 365 ∧
    get_stats_route clampCexDb 0 0 = get_generation_stats clampCexDb 0 1 :=
  ⟨(get_stats_route_clamps_days clampCexDb 0 400).2.1 (by norm_num),
   (get_stats_route_clamps_days clampCexDb 0 0).2.2.1 (by norm_num)⟩

theorem pyRound2_eq_int_div (q : ℚ) : ∃ n : ℤ, pyRound2 q = (n : ℚ) / 100 :=
  ⟨_, rfl⟩

theorem pyRound2_mul_hundred (q : ℚ) : ∃ n : ℤ, pyRound2 q * 100 = (n : ℚ) := by
  obtain ⟨n, h⟩ := pyRound2_eq_int_div q
  exact ⟨n, by rw [h]; field_simp⟩

/-- Counterexample for C9 as stated: three completed records on one
device with times 10, 10, 5 give a per-device `avg_time` of 25/3, which
is not rounded to two decimal places (`pyRound2 (25/3) = 8.33 ≠ 25/3`). -/
theorem get_generation_stats_device_avg_unrounded_cex :
    (get_generation_stats devCexDb 1 7).device_breakdown = [("cpu", 3, 25 / 3)] ∧
    pyRound2 (25 / 3) ≠ (25 / 3 : ℚ) := by
  constructor
  · simp [get_generation_stats, devCexDb, baseRec, List.filter_cons, addDeviceStat]
    norm_num
  · norm_num [pyRound2, Int.fract]

/-- C9 (amended): the top-level rates and averages of the stats report —
`success_rate`, `avg_generation_time`, `avg_realtime_factor`,
`total_file_size_mb` and `avg_file_size_mb` — are all rounded to two
decimal places (each times 100 is an integer); the per-device `avg_time`
of the device breakdown is returned unrounded (`total_time / count`
exactly). -/
theorem get_generation_stats_rounding (db : List MusicGeneration) (now : ℚ)
    (days : ℤ) :
    ∃ n1 n2 n3 n4 n5 : ℤ,
      (get_generation_stats db now days).success_rate * 100 = (n1 : ℚ) ∧
      (get_generation_stats db now days).avg_generation_time * 100 = (n2 : ℚ) ∧
      (get_generation_stats db now days).avg_realtime_factor * 100 = (n3 : ℚ) ∧
      (get_generation_stats db now days).total_file_size_mb * 100 = (n4 : ℚ) ∧
      (get_generation_stats db now days).avg_file_size_mb * 100 = (n5 : ℚ) := by
  obtain ⟨q1, hq1⟩ : ∃ q, (get_generation_stats db now days).success_rate = pyRound2 q :=
    ⟨_, rfl⟩
  obtain ⟨q2, hq2⟩ : ∃ q, (get_generation_stats db now days).avg_generation_time = pyRound2 q :=
    ⟨_, rfl⟩
  obtain ⟨q3, hq3⟩ : ∃ q, (get_generation_stats db now days).avg_realtime_factor = pyRound2 q :=
    ⟨_, rfl⟩
  obtain ⟨q4, hq4⟩ : ∃ q, (get_generation_stats db now days).total_file_size_mb = pyRound2 q :=
    ⟨_, rfl⟩
  obtain ⟨q5, hq5⟩ : ∃ q, (get_generation_stats db now days).avg_file_size_mb = pyRound2 q :=
    ⟨_, rfl⟩
  obtain ⟨n1, h1⟩ := pyRound2_mul_hundred q1
  obtain ⟨n2, h2⟩ := pyRound2_mul_hundred q2
  obtain ⟨n3, h3⟩ := pyRound2_mul_hundred q3
  obtain ⟨n4, h4⟩ := pyRound2_mul_hundred q4
  obtain ⟨n5, h5⟩ := pyRound2_mul_hundred q5
  exact ⟨n1, n2, n3, n4, n5, by rw [hq1, h1], by rw [hq2, h2], by rw [hq3, h3],
    by rw [hq4, h4], by rw [hq5, h5]⟩

/-! ## Health scorer -/

theorem truthy_if_eq (v : Option ℚ) (bound : ℚ) (p : ℤ) (hb : 0 ≤ bound) :
    (if truthyGT v bound then p else 0) =
      (match v with
       | some c => if c > bound then p else 0
       | none => 0) := by
  cases v with
  | none => simp [truthyGT]
  | some c =>
      by_cases hc : c = 0
      · subst hc
        have hnb : ¬ ((0 : ℚ) > bound) := not_lt.mpr hb
        simp [truthyGT, hnb]
      · by_cases h : c > bound <;> simp [truthyGT, hc, h]

theorem specCpuPenalty_bound (lm : Option SystemMetrics) :
    0 ≤ specCpuPenalty lm ∧ specCpuPenalty lm ≤ 20 := by
  rcases lm with _ | m
  · simp [specCpuPenalty]
  · rcases hm : m.cpu_usage with _ | c <;> simp [specCpuPenalty, hm] <;>
      split_ifs <;> omega

theorem specMemPenalty_bound (lm : Option SystemMetrics) :
    0 ≤ specMemPenalty lm ∧ specMemPenalty lm ≤ 20 := by
  rcases lm with _ | m
  · simp [specMemPenalty]
  · rcases hm : m.memory_usage with _ | c <;> simp [specMemPenalty, hm] <;>
      split_ifs <;> omega

theorem specErrPenalty_bound (lm : Option SystemMetrics) :
    0 ≤ specErrPenalty lm ∧ specErrPenalty lm ≤ 30 := by
  rcases lm with _ | m
  · simp [specErrPenalty]
  · simp only [specErrPenalty]; split_ifs <;> omega

theorem specRecentPenalty_bound (db : List MusicGeneration) (now : ℚ) :
    0 ≤ specRecentPenalty db now ∧ specRecentPenalty db now ≤ 30 := by
  simp only [specRecentPenalty]; split_ifs <;> omega

theorem spec_score_nonneg (lm : Option SystemMetrics)
    (db : List MusicGeneration) (now : ℚ) :
    0 ≤ 100 - specCpuPenalty lm - specMemPenalty lm - specErrPenalty lm -
      specRecentPenalty db now := by
  obtain ⟨h1, h2⟩ := specCpuPenalty_bound lm
  obtain ⟨h3, h4⟩ := specMemPenalty_bound lm
  obtain ⟨h5, h6⟩ := specErrPenalty_bound lm
  obtain ⟨h7, h8⟩ := specRecentPenalty_bound db now
  omega

theorem get_system_health_unfold (db : List MusicGeneration)
    (metrics : List SystemMetrics) (now : ℚ) :
    (get_system_health db metrics now).health_score =
      100 - specCpuPenalty (latestMetric metrics)
        - specMemPenalty (latestMetric metrics)
        - specErrPenalty (latestMetric metrics)
        - specRecentPenalty db now ∧
    (get_system_health db metrics now).status =
      (if (100 - specCpuPenalty (latestMetric metrics)
          - specMemPenalty (latestMetric metrics)
          - specErrPenalty (latestMetric metrics)
          - specRecentPenalty db now) ≥ 80 then "healthy"
       else if (100 - specCpuPenalty (latestMetric metrics)
          - specMemPenalty (latestMetric metrics)
          - specErrPenalty (latestMetric metrics)
          - specRecentPenalty db now) ≥ 50 then "warning"
       else "critical") := by
  have hA : (match latestMetric metrics with
      | some m => (100 : ℤ) - (if truthyGT m.cpu_usage 80 then 20 else 0)
          - (if truthyGT m.memory_usage 85 then 20 else 0)
          - (if m.error_rate > 1 / 10 then 30 else 0)
      | none => 100)
      = 100 - specCpuPenalty (latestMetric metrics)
        - specMemPenalty (latestMetric metrics)
        - specErrPenalty (latestMetric metrics) := by
    cases latestMetric metrics with
    | none => simp [specCpuPenalty, specMemPenalty, specErrPenalty]
    | some m =>
        simp only [specCpuPenalty, specMemPenalty, specErrPenalty]
        rw [truthy_if_eq m.cpu_usage 80 20 (by norm_num),
            truthy_if_eq m.memory_usage 85 20 (by norm_num)]
  have hB : ∀ A : ℤ, ∀ C : Prop, ∀ hC : Decidable C,
      (@ite _ C hC (A - 30) A) = A - (@ite _ C hC (30 : ℤ) 0) := by
    intro A C hC
    by_cases h : C <;> simp [h]
  have hge := spec_score_nonneg (latestMetric metrics) db now
  constructor
  · simp only [get_system_health, hA, hB, specRecentPenalty]
    simp only [specRecentPenalty] at hge
    exact max_eq_right hge
  · simp only [get_system_health, hA, hB, specRecentPenalty]

/-- C5: the health score is 100 minus 20 if the latest CPU sample exceeds
80, minus 20 if the latest memory sample exceeds 85, minus 30 if the
latest error rate exceeds 0.1, minus 30 more if over 20% of the trailing
hour's records failed, clamped at 0; the status is `healthy` when the
score is ≥ 80, `warning` when ≥ 50, else `critical` (boundary-inclusive);
in particular CPU=90, memory=50, error_rate=0 and no recent failures
yield score 80 and status `healthy`. -/
theorem get_system_health_score_spec (db : List MusicGeneration)
    (metrics : List SystemMetrics) (now : ℚ) :
    (get_system_health db metrics now).health_score =
      max 0 (100 - specCpuPenalty (latestMetric metrics)
        - specMemPenalty (latestMetric metrics)
        - specErrPenalty (latestMetric metrics)
        - specRecentPenalty db now) ∧
    (get_system_health db metrics now).status =
      (if (get_system_health db metrics now).health_score ≥ 80 then "healthy"
       else if (get_system_health db metrics now).health_score ≥ 50 then "warning"
       else "critical") ∧
    (get_system_health [] [highCpuMetric] 0).health_score = 80 ∧
    (get_system_health [] [highCpuMetric] 0).status = "healthy" := by
  obtain ⟨h1, h2⟩ := get_system_health_unfold db metrics now
  have hge := spec_score_nonneg (latestMetric metrics) db now
  have hval : latestMetric [highCpuMetric] = some highCpuMetric := rfl
  have hcpu : specCpuPenalty (latestMetric [highCpuMetric]) = 20 := by
    rw [hval]; norm_num [specCpuPenalty, highCpuMetric]
  have hmem : specMemPenalty (latestMetric [highCpuMetric]) = 0 := by
    rw [hval]; norm_num [specMemPenalty, highCpuMetric]
  have herr : specErrPenalty (latestMetric [highCpuMetric]) = 0 := by
    rw [hval]; norm_num [specErrPenalty, highCpuMetric]
  have hrec : specRecentPenalty [] 0 = 0 := by
    norm_num [specRecentPenalty]
  refine ⟨?_, ?_, ?_, ?_⟩
  · rw [h1, max_eq_right hge]
  · rw [h2, h1]
  · rw [(get_system_health_unfold [] [highCpuMetric] 0).1, hcpu, hmem, herr, hrec]
    norm_num
  · rw [(get_system_health_unfold [] [highCpuMetric] 0).2, hcpu, hmem, herr, hrec]
    norm_num

/-! ## Lost updates under concurrency -/

set_option maxRecDepth 8000 in
/-- C10 (evaluation of the code at the failing schedule): `record_play`'s
read-then-write has no row-level locking, so among the complete
interleavings of 50 concurrent calls on one record starting at count 0,
the serial one yields 50 but the all-reads-first one yields 1: counter
increments are lost, contradicting the claimed `count == N` guarantee. -/
theorem record_play_lost_update :
    isInterleaving 50 (serialSchedule 50) = true ∧
    (runSchedule (initConcState 50) (serialSchedule 50)).shared = 50 ∧
    isInterleaving 50 (lostUpdateSchedule 50) = true ∧
    (runSchedule (initConcState 50) (lostUpdateSchedule 50)).shared = 1 ∧
    (1 : ℕ) ≠ 0 + 50 := by
  refine ⟨by decide, by decide, by decide, by decide, by decide⟩
